import Mathlib

/-!
# Verification of the pomodoro CalDAV synchronization engine

Shallow embedding of the bidirectional reconciliation engine of
`src/pomodoro.py` (classes `PomodoroDatabase` and `CalDAVSync`), together
with theorems settling the frozen claims about it.

Modelling conventions:
* Timestamps (`datetime` values, ISO-8601 strings in SQLite) are modelled as
  `Int` seconds.  All arithmetic done by the source on datetimes
  (`timedelta(seconds=..)`, `(end - start).total_seconds()`, the
  `julianday` difference in `find_session_by_time_and_task`) is exact
  integer arithmetic on such values, so this is faithful.
* The SQLite tables `sessions` and `sync_mapping` are modelled as lists of
  structures; `AUTOINCREMENT` is modelled by a `next_id` counter.
* The CalDAV calendar is modelled as a list of remote events.  The remote
  operations that the source performs through the `caldav` library are
  modelled as pure list operations; the per-call failures the source
  catches (`event.save()`, `event.delete()`, `calendar.client.delete(url)`
  raising) are injected through a `CalBehavior` failure oracle whose errors
  are the exception message strings the source inspects (`'412' in str(e)`
  etc.).  `event.load()` (a read refreshing the ETag, wrapped in
  `try/except: pass`) has no modelled effect.  `calendar.add_event` is
  modelled as always succeeding.
* Python string operations are modelled on `List Char`:
  `summary.replace('🍅', '')` has a one-character pattern, hence equals
  removing every `'🍅'` character; `.strip()` drops whitespace at both
  ends; `in` is substring containment; `.lower()` maps `Char.toLower`.
-/

/-! ## Python string primitives, modelled on `List Char` -/

/-- `listIsPrefix pat l` : does `l` start with `pat`? -/
def listIsPrefix : List Char → List Char → Bool
  | [], _ => true
  | _ :: _, [] => false
  | a :: as, b :: bs => a == b && listIsPrefix as bs

/-- `listHasSub l pat` : does `l` contain `pat` as a contiguous sublist?
Models the Python `pat in l` test (all uses have non-empty `pat`). -/
def listHasSub : List Char → List Char → Bool
  | l, pat =>
    match l with
    | [] => listIsPrefix pat []
    | _ :: t => listIsPrefix pat l || listHasSub t pat

/-- Python `needle in hay` on strings. -/
def strHasSub (hay needle : String) : Bool :=
  listHasSub hay.data needle.data

/-- Python `s.startswith(pre)`. -/
def strStarts (s pre : String) : Bool :=
  listIsPrefix pre.data s.data

/-- Python `s.strip()` : drop whitespace at both ends. -/
def pyStrip (l : List Char) : List Char :=
  ((l.dropWhile Char.isWhitespace).reverse.dropWhile Char.isWhitespace).reverse

/-- Python `s.lower()` (ASCII-faithful). -/
def strLower (s : String) : String :=
  ⟨s.data.map Char.toLower⟩

/-- Python `summary.replace('🍅', '').strip()` : the pattern is a single
character, so `replace` removes every occurrence of that character. -/
def stripMarker (s : String) : String :=
  ⟨pyStrip (s.data.filter (fun c => c != '🍅'))⟩

/-! ## Data model: the SQLite schema of `PomodoroDatabase.init_db` -/

/-- A row of the `sessions` table. -/
structure Session where
  id : Nat
  task_name : String
  duration_seconds : Int
  start_time : Int
  end_time : Option Int
  status : String
  completed_seconds : Int
deriving Repr, DecidableEq

/-- A row of the `sync_mapping` table
(`session_id PRIMARY KEY, calendar_uid UNIQUE, calendar_url, last_synced`). -/
structure Mapping where
  session_id : Nat
  calendar_uid : String
  calendar_url : Option String
  last_synced : Option Int
deriving Repr, DecidableEq

/-- The local store (`PomodoroDatabase`): both tables plus the
`AUTOINCREMENT` counter backing `cursor.lastrowid`. -/
structure DB where
  sessions : List Session
  mappings : List Mapping
  next_id : Nat
deriving Repr, DecidableEq

namespace DB

/-- `PomodoroDatabase.session_exists`. -/
def session_exists (db : DB) (sid : Nat) : Bool :=
  db.sessions.any (fun s => s.id == sid)

/-- `PomodoroDatabase.get_sync_mapping(session_id=sid)`. -/
def get_sync_mapping_by_session (db : DB) (sid : Nat) : List Mapping :=
  db.mappings.filter (fun m => m.session_id == sid)

/-- `PomodoroDatabase.get_sync_mapping(calendar_uid=uid)`. -/
def get_sync_mapping_by_uid (db : DB) (uid : String) : List Mapping :=
  db.mappings.filter (fun m => m.calendar_uid == uid)

/-- `PomodoroDatabase.set_sync_mapping`: SQLite `INSERT OR REPLACE` into a
table whose `session_id` is the primary key and whose `calendar_uid` is
`UNIQUE` first deletes every row conflicting on either key, then inserts;
`last_synced` is set to `datetime.now()`, passed here as `now`. -/
def set_sync_mapping (db : DB) (sid : Nat) (uid : String)
    (url : Option String) (now : Int) : DB :=
  let kept :=
    db.mappings.filter (fun m => !(m.session_id == sid || m.calendar_uid == uid))
  { db with mappings := kept ++ [⟨sid, uid, url, some now⟩] }

/-- `PomodoroDatabase.delete_sync_mapping(session_id=sid)`. -/
def delete_sync_mapping_by_session (db : DB) (sid : Nat) : DB :=
  { db with mappings := db.mappings.filter (fun m => !(m.session_id == sid)) }

/-- `PomodoroDatabase.delete_sync_mapping(calendar_uid=uid)`. -/
def delete_sync_mapping_by_uid (db : DB) (uid : String) : DB :=
  { db with mappings := db.mappings.filter (fun m => !(m.calendar_uid == uid)) }

/-- Field update used by `PomodoroDatabase.update_session`: every argument
that is `some` becomes an entry of the SQL `SET` clause, every `none`
parameter leaves the column untouched. -/
def updateFields (s : Session) (task : Option String) (dur : Option Int)
    (start : Option Int) (endT : Option Int) (status : Option String)
    (comp : Option Int) : Session :=
  { s with
    task_name := task.getD s.task_name
    duration_seconds := dur.getD s.duration_seconds
    start_time := start.getD s.start_time
    end_time := match endT with | some e => some e | none => s.end_time
    status := status.getD s.status
    completed_seconds := comp.getD s.completed_seconds }

/-- `PomodoroDatabase.update_session`: updates the row `WHERE id = sid`. -/
def update_session (db : DB) (sid : Nat) (task : Option String)
    (dur : Option Int) (start : Option Int) (endT : Option Int)
    (status : Option String) (comp : Option Int) : DB :=
  { db with sessions := db.sessions.map (fun s =>
      if s.id == sid then updateFields s task dur start endT status comp
      else s) }

/-- `PomodoroDatabase.add_session`: `INSERT` returning `lastrowid`. -/
def add_session (db : DB) (task : String) (dur : Int) (start : Int)
    (endT : Option Int) (status : String) (comp : Int) : DB × Nat :=
  let sid := db.next_id
  ({ db with
      sessions := db.sessions ++ [⟨sid, task, dur, start, endT, status, comp⟩]
      next_id := db.next_id + 1 }, sid)

/-- `PomodoroDatabase.delete_session`. -/
def delete_session (db : DB) (sid : Nat) : DB :=
  { db with sessions := db.sessions.filter (fun s => !(s.id == sid)) }

/-- `PomodoroDatabase.find_session_by_time_and_task`: rows with the same
`task_name` whose start differs by at most `tolerance_minutes * 60`
seconds, ordered by that absolute difference, `LIMIT 1`.  Among rows at
equal distance SQLite returns them in scan order, i.e. the first stored
row is kept. -/
def find_session_by_time_and_task (db : DB) (start : Int) (task : String)
    (tolerance_minutes : Nat) : Option Session :=
  let tol : Nat := tolerance_minutes * 60
  let cands := db.sessions.filter
    (fun s => s.task_name == task && (s.start_time - start).natAbs ≤ tol)
  cands.foldl (fun acc s =>
    match acc with
    | none => some s
    | some b =>
        if (s.start_time - start).natAbs < (b.start_time - start).natAbs
        then some s else acc) none

end DB

/-! ## Remote calendar model (`CalDAVSync`) -/

/-- A calendar object on the remote CalDAV store: the fields of the VEVENT
the source reads/writes (UID, SUMMARY, DESCRIPTION, DTSTART, DTEND) plus
its server-side location `url` (`event.url`).  `dtstart`/`dtend` are
optional because remote objects may lack them. -/
structure REvent where
  uid : String
  summary : String
  description : String
  dtstart : Option Int
  dtend : Option Int
  url : String
deriving Repr, DecidableEq

/-- The CalDAV configuration and connectivity environment of
`CalDAVSync.connect`: the configured URL (absent when unconfigured), and
whether the `DAVClient` handshake (authentication, principal/calendar
discovery) succeeds — when it fails, `connectErr` is `str(e)`. -/
structure SyncConfig where
  url : Option String
  connectOk : Bool
  connectErr : String
deriving Repr, DecidableEq

/-- Failure oracle for the per-object remote writes the source wraps in
`try/except`: `saveErr uid` is the exception message of `event.save()` (or
of the `component['dtstart']` lookup) when it raises, `delErr uid` that of
`event.delete()`, `directDelErr url` that of
`calendar.client.delete(event_url)`. -/
structure CalBehavior where
  saveErr : String → Option String
  delErr : String → Option String
  directDelErr : String → Option String

/-- A remote that accepts every operation (no exceptions raised). -/
def noFail : CalBehavior := ⟨fun _ => none, fun _ => none, fun _ => none⟩

/-- Abstraction of two Python primitives used only to build UIDs for
manually-created events with an empty UID: `hash(...)` and `str(dt)`. -/
structure PyEnv where
  pyhash : String → Int
  showDt : Int → String

def defaultEnv : PyEnv := ⟨fun _ => 0, fun _ => ""⟩

/-- `CalDAVSync.connect`: no URL configured is an immediate failure with
message `'No CalDAV URL configured'`; otherwise the handshake outcome. -/
def connect (cfg : SyncConfig) : Bool × Option String :=
  match cfg.url with
  | none => (false, some "No CalDAV URL configured")
  | some _ => if cfg.connectOk then (true, none) else (false, some cfg.connectErr)

/-- `calendar.search(uid=u)`. -/
def searchUid (remote : List REvent) (u : String) : List REvent :=
  remote.filter (fun e => e.uid == u)

/-- One year in seconds (`timedelta(days=365)`). -/
def yearSeconds : Int := 31536000

/-- Membership in the `calendar.search(start=now-365d, end=now+365d)`
window, by the object's DTSTART (objects without a DTSTART are not
returned by a time-range search). -/
def inWindow (now : Int) (e : REvent) : Bool :=
  match e.dtstart with
  | none => false
  | some t => decide (now - yearSeconds ≤ t) && decide (t ≤ now + yearSeconds)

/-- `calendar.search(start=.., end=..)`. -/
def searchWindow (remote : List REvent) (now : Int) : List REvent :=
  remote.filter (inWindow now)

/-- Replace the first element satisfying `p` (the object `events[0]` that
`event.save()` writes back). -/
def updFirst (p : REvent → Bool) (f : REvent → REvent) : List REvent → List REvent
  | [] => []
  | e :: es => if p e then f e :: es else e :: updFirst p f es

/-- Deterministic UID of push-created objects:
`f"pomodoro-{session['id']}@pomodoro-timer"`. -/
def sessionUid (s : Session) : String :=
  "pomodoro-" ++ toString s.id ++ "@pomodoro-timer"

/-- `f"🍅 {session['task_name']}"`. -/
def sessionSummary (s : Session) : String :=
  "🍅 " ++ s.task_name

/-- The DESCRIPTION body (`//` is Python floor division, `Int.fdiv`). -/
def sessionDescription (s : Session) : String :=
  "Pomodoro session: " ++ s.task_name ++
  "\nDuration: " ++ toString (Int.fdiv s.duration_seconds 60) ++
  " minutes\nCompleted: " ++ toString (Int.fdiv s.completed_seconds 60) ++
  " minutes\nStatus: " ++ s.status

/-- `end_time` used by push: the stored end, or `start + duration` when the
session has no end (`start_time + timedelta(seconds=duration_seconds)`). -/
def sessionEndTime (s : Session) : Int :=
  s.end_time.getD (s.start_time + s.duration_seconds)

/-- The calendar object push writes for session `s` under UID `u`.  The
server-assigned location of a freshly created object is modelled by its
UID. -/
def renderEvent (u : String) (s : Session) : REvent :=
  ⟨u, sessionSummary s, sessionDescription s, some s.start_time,
   some (sessionEndTime s), u⟩

/-- `'412' in error_str or 'Precondition Failed' in error_str`. -/
def isPrecondErr (msg : String) : Bool :=
  strHasSub msg "412" || strHasSub msg "Precondition Failed"

/-- `uid.startswith('pomodoro-') and '@pomodoro-timer' in uid`. -/
def isPomodoroUid (uid : String) : Bool :=
  strStarts uid "pomodoro-" && strHasSub uid "@pomodoro-timer"

/-- `'🍅' in summary or 'pomodoro' in summary.lower()`. -/
def markerInSummary (summary : String) : Bool :=
  strHasSub summary "🍅" || strHasSub (strLower summary) "pomodoro"

/-- Combined recognition signal used by the push orphan sweep; the pull
path tests exactly the same two signals. -/
def isPomodoroSignal (uid summary : String) : Bool :=
  isPomodoroUid uid || markerInSummary summary

/-- Result of `sync_to_calendar` (the `message` string is elided; the
`error` field carries the failure message). -/
structure PushResult where
  success : Bool
  synced : Nat
  updated : Nat
  deleted : Nat
  error : Option String
deriving Repr, DecidableEq

/-- Result of `sync_from_calendar`. -/
structure PullResult where
  success : Bool
  imported : Nat
  updated : Nat
  skipped : Nat
  total_events : Nat
  error : Option String
deriving Repr, DecidableEq

/-- Result of the combined `CalDAVSync.sync`. -/
structure SyncResult where
  success : Bool
  to_calendar : PushResult
  from_calendar : PullResult
deriving Repr, DecidableEq

/-- The mutable state a sync call touches: the local database, the remote
store, and whether `self.calendar` is a live connection. -/
structure SyncState where
  db : DB
  remote : List REvent
  connected : Bool
deriving Repr, DecidableEq

/-- The nested delete fallback the source duplicates in the orphan loop
and the orphan sweep: `event.load()` (best effort, no modelled effect),
`event.delete()`; on failure, `calendar.client.delete(str(event.url))`;
returns the new remote and whether `deleted` was incremented. -/
def deleteEventBestEffort (beh : CalBehavior) (remote : List REvent)
    (e : REvent) : List REvent × Bool :=
  match beh.delErr e.uid with
  | none => (remote.eraseP (fun x => x.uid == e.uid), true)
  | some _ =>
    match beh.directDelErr e.url with
    | none => (remote.eraseP (fun x => x.url == e.url), true)
    | some _ => (remote, false)

/-- First phase of `sync_to_calendar`: for each mapping whose session no
longer exists, delete the remote object (best effort) and then, in every
case — even when the remote delete failed — delete the mapping. -/
def orphanStep (beh : CalBehavior) (sessionIds : List Nat)
    (acc : DB × List REvent × Nat) (m : Mapping) : DB × List REvent × Nat :=
  let (db, remote, deleted) := acc
  if sessionIds.contains m.session_id then acc
  else
    match searchUid remote m.calendar_uid with
    | [] => (db.delete_sync_mapping_by_uid m.calendar_uid, remote, deleted)
    | e :: _ =>
      let (remote', counted) := deleteEventBestEffort beh remote e
      (db.delete_sync_mapping_by_uid m.calendar_uid, remote',
       if counted then deleted + 1 else deleted)

/-- Second phase of `sync_to_calendar`: sweep the search window for
pomodoro-recognizable objects whose UID is not expected and whose mapping
(if any) points to a deleted session; delete those objects and their
mappings. -/
def sweepStep (beh : CalBehavior) (expected : List String)
    (sessionIds : List Nat) (acc : DB × List REvent × Nat) (e : REvent) :
    DB × List REvent × Nat :=
  let (db, remote, deleted) := acc
  if isPomodoroUid e.uid || markerInSummary e.summary then
    if expected.contains e.uid then acc
    else
      let mapping := db.get_sync_mapping_by_uid e.uid
      let orphaned :=
        match mapping with
        | [] => true
        | m :: _ => !(sessionIds.contains m.session_id)
      if orphaned then
        let (remote', counted) := deleteEventBestEffort beh remote e
        let db' := if mapping.isEmpty then db
                   else db.delete_sync_mapping_by_uid e.uid
        (db', remote', if counted then deleted + 1 else deleted)
      else acc
  else acc

/-- Third phase of `sync_to_calendar`: push one session.  A mapped session
whose object is found is updated in place; if `event.save()` raises (or
the object lacks a DTSTART/DTEND property, making the
`component['dtstart']` lookup raise), the object is deleted best-effort
and recreated under the same mapped UID, still counted as updated.  A
mapped session whose object is gone is recreated under the mapped UID and
counted as synced.  An unmapped session gets a fresh object under its
deterministic UID plus a new mapping, counted as synced. -/
def pushSessionStep (beh : CalBehavior) (now : Int)
    (acc : DB × List REvent × Nat × Nat) (s : Session) :
    DB × List REvent × Nat × Nat :=
  let (db, remote, synced, updated) := acc
  match db.get_sync_mapping_by_session s.id with
  | m :: _ =>
    let cuid := m.calendar_uid
    match searchUid remote cuid with
    | e :: _ =>
      if (beh.saveErr cuid).isNone && e.dtstart.isSome && e.dtend.isSome then
        let remote' := updFirst (fun x => x.uid == cuid)
          (fun x =>
            { x with
              summary := sessionSummary s
              description := sessionDescription s
              dtstart := some s.start_time
              dtend := some (sessionEndTime s) }) remote
        (db, remote', synced, updated + 1)
      else
        let remote1 :=
          match beh.delErr cuid with
          | none => remote.eraseP (fun x => x.uid == cuid)
          | some _ => remote
        (db, remote1 ++ [renderEvent cuid s], synced, updated + 1)
    | [] =>
      (db, remote ++ [renderEvent cuid s], synced + 1, updated)
  | [] =>
    (db.set_sync_mapping s.id (sessionUid s) none now,
     remote ++ [renderEvent (sessionUid s) s], synced + 1, updated)

/-- The body of `sync_to_calendar` after a successful connection.
`get_all_sessions` orders rows by `start_time DESC`; only the iteration
order depends on it, so sessions are folded in table order. -/
def pushBody (beh : CalBehavior) (now : Int) (db : DB)
    (remote : List REvent) : DB × List REvent × PushResult :=
  let sessions := db.sessions
  let all_mappings := db.mappings
  let sessionIds := sessions.map (fun s => s.id)
  let expected := sessions.map sessionUid ++
    (all_mappings.filter (fun m => sessionIds.contains m.session_id)).map
      (fun m => m.calendar_uid)
  let a := all_mappings.foldl (orphanStep beh sessionIds) (db, remote, 0)
  let winEvents := searchWindow a.2.1 now
  let b := winEvents.foldl (sweepStep beh expected sessionIds) a
  let c := (b.1.sessions).foldl (pushSessionStep beh now) (b.1, b.2.1, 0, 0)
  (c.1, c.2.1, ⟨true, c.2.2.1, c.2.2.2, b.2.2, none⟩)

/-- `CalDAVSync.sync_to_calendar`. -/
def sync_to_calendar (cfg : SyncConfig) (beh : CalBehavior) (now : Int)
    (st : SyncState) : SyncState × PushResult :=
  if st.connected then
    let r := pushBody beh now st.db st.remote
    (⟨r.1, r.2.1, true⟩, r.2.2)
  else
    match connect cfg with
    | (true, _) =>
      let r := pushBody beh now st.db st.remote
      (⟨r.1, r.2.1, true⟩, r.2.2)
    | (false, err) => (st, ⟨false, 0, 0, 0, err⟩)

/-- Per-event body of `sync_from_calendar`.  Unrecognized objects are
skipped; recognized marker-only objects with an empty UID get a generated
UID (raising — hence skipping — when DTSTART is absent); an object whose
DTSTART is absent is silently ignored without any counter.  Otherwise the
target session is resolved through the mapping table, then the fuzzy
lookup, and imported as a fresh completed session when unmatched. -/
def pullStep (env : PyEnv) (now : Int) (acc : DB × Nat × Nat × Nat)
    (e : REvent) : DB × Nat × Nat × Nat :=
  let (db, imported, updated, skipped) := acc
  let isPomEvent := isPomodoroUid e.uid
  if !isPomEvent && !markerInSummary e.summary then
    (db, imported, updated, skipped + 1)
  else
    let uidGen : Option String :=
      if !isPomEvent && e.uid == "" then
        match e.dtstart with
        | none => none
        | some t =>
          let tmp := stripMarker e.summary
          let task0 := if tmp == "" then "Imported Session" else tmp
          some ("pomodoro-manual-" ++
                toString (env.pyhash (env.showDt t ++ task0)) ++
                "@pomodoro-timer")
      else some e.uid
    match uidGen with
    | none => (db, imported, updated, skipped + 1)
    | some uid =>
      let tmp := stripMarker e.summary
      let task := if tmp == "" then "Imported Session" else tmp
      match e.dtstart with
      | none => acc
      | some startT =>
        let endT := e.dtend.getD (startT + 25 * 60)
        let dur : Int := endT - startT
        match db.get_sync_mapping_by_uid uid with
        | m :: _ =>
          if db.session_exists m.session_id then
            (db.update_session m.session_id (some task) (some dur)
               (some startT) (some endT) none none,
             imported, updated + 1, skipped)
          else
            let db1 := db.delete_sync_mapping_by_uid uid
            let p := db1.add_session task dur startT (some endT)
              "completed" dur
            (p.1.set_sync_mapping p.2 uid (some e.url) now,
             imported + 1, updated, skipped)
        | [] =>
          match db.find_session_by_time_and_task startT task 5 with
          | some ex =>
            if (db.get_sync_mapping_by_session ex.id).isEmpty then
              let db1 := db.update_session ex.id (some task) (some dur)
                (some startT) (some endT) none none
              (db1.set_sync_mapping ex.id uid (some e.url) now,
               imported, updated + 1, skipped)
            else
              (db, imported, updated, skipped + 1)
          | none =>
            let p := db.add_session task dur startT (some endT)
              "completed" dur
            (p.1.set_sync_mapping p.2 uid (some e.url) now,
             imported + 1, updated, skipped)

/-- `CalDAVSync.sync_from_calendar`. -/
def sync_from_calendar (cfg : SyncConfig) (env : PyEnv) (now : Int)
    (st : SyncState) : SyncState × PullResult :=
  let body : SyncState × PullResult :=
    let evs := searchWindow st.remote now
    let r := evs.foldl (pullStep env now) (st.db, 0, 0, 0)
    (⟨r.1, st.remote, true⟩, ⟨true, r.2.1, r.2.2.1, r.2.2.2, evs.length, none⟩)
  if st.connected then body
  else
    match connect cfg with
    | (true, _) => body
    | (false, err) => (st, ⟨false, 0, 0, 0, 0, err⟩)

/-- `CalDAVSync.sync`: push, then pull; overall success is the conjunction
of the two sub-results. -/
def caldavSync (cfg : SyncConfig) (beh : CalBehavior) (env : PyEnv)
    (now : Int) (st : SyncState) : SyncState × SyncResult :=
  let a := sync_to_calendar cfg beh now st
  let b := sync_from_calendar cfg env now a.1
  (b.1, ⟨a.2.success && b.2.success, a.2, b.2⟩)

/-! ## General helper lemmas -/

/-- A filter keeps the pairwise distinctness of any key. -/
theorem pairwise_filter_of_pairwise {α : Type} (R : α → α → Prop)
    (p : α → Bool) (l : List α) (h : l.Pairwise R) :
    (l.filter p).Pairwise R :=
  h.sublist (List.filter_sublist l)

/-- Filtering a list whose `key`s are pairwise distinct for the key of a
member returns exactly that member. -/
theorem filter_key_singleton {α κ : Type} [DecidableEq κ] (key : α → κ)
    (l : List α) (hpw : l.Pairwise (fun x y => key x ≠ key y)) (a : α)
    (ha : a ∈ l) (v : κ) (hv : key a = v) :
    l.filter (fun x => key x == v) = [a] := by
  induction l with
  | nil => cases ha
  | cons x xs ih =>
    rcases List.pairwise_cons.mp hpw with ⟨hx, hxs⟩
    rcases List.mem_cons.mp ha with rfl | hmem
    · have : ∀ y ∈ xs, ¬(key y == v) = true := by
        intro y hy
        simp only [beq_iff_eq]
        intro hkey
        exact hx y hy (hv.trans hkey.symm)
      simp [List.filter_cons, hv, List.filter_eq_nil_iff.mpr this]
    · have hne : ¬(key x == v) = true := by
        simp only [beq_iff_eq]
        intro hkey
        exact hx a hmem (hkey.trans hv.symm)
      simp only [List.filter_cons, hne, if_neg]
      simpa using ih hxs hmem

/-- In a list with pairwise-distinct keys, members sharing a key are
identical. -/
theorem eq_of_mem_pairwise_key {α κ : Type} (key : α → κ) (l : List α)
    (hpw : l.Pairwise (fun x y => key x ≠ key y)) (a b : α)
    (ha : a ∈ l) (hb : b ∈ l) (hk : key a = key b) : a = b := by
  induction l with
  | nil => cases ha
  | cons x xs ih =>
    rcases List.pairwise_cons.mp hpw with ⟨hx, hxs⟩
    rcases List.mem_cons.mp ha with rfl | hamem
    · rcases List.mem_cons.mp hb with rfl | hbmem
      · rfl
      · exact absurd hk (hx b hbmem)
    · rcases List.mem_cons.mp hb with rfl | hbmem
      · exact absurd hk.symm (hx a hamem)
      · exact ih hxs hamem hbmem

/-- A fold whose step fixes every accumulator is the identity. -/
theorem foldl_fixed {α β : Type} (f : β → α → β) (l : List α)
    (h : ∀ x ∈ l, ∀ acc, f acc x = acc) (init : β) :
    l.foldl f init = init := by
  induction l generalizing init with
  | nil => rfl
  | cons x xs ih =>
    rw [List.foldl_cons, h x (List.mem_cons_self x xs)]
    exact ih (fun y hy acc => h y (List.mem_cons_of_mem x hy) acc) init

/-! ## Claim C9 — mapping-table uniqueness invariant -/

/-- The uniqueness invariant of the `sync_mapping` table: `session_id` is
the primary key and `calendar_uid` is declared `UNIQUE`. -/
def MappingInv (ms : List Mapping) : Prop :=
  ms.Pairwise (fun a b => a.session_id ≠ b.session_id) ∧
  ms.Pairwise (fun a b => a.calendar_uid ≠ b.calendar_uid)

/-- Claim C9 (confirmed): in every reachable state of the mapping table
each session is referenced by at most one mapping and each calendar UID
appears in at most one row; both mapping-table operations — the
`INSERT OR REPLACE` upsert `set_sync_mapping` and the two forms of
`delete_sync_mapping` — preserve this invariant. -/
theorem mapping_uniqueness_invariant_preserved (db : DB) (sid : Nat)
    (uid : String) (url : Option String) (now : Int)
    (h : MappingInv db.mappings) :
    MappingInv (db.set_sync_mapping sid uid url now).mappings ∧
    MappingInv (db.delete_sync_mapping_by_session sid).mappings ∧
    MappingInv (db.delete_sync_mapping_by_uid uid).mappings := by
  obtain ⟨h1, h2⟩ := h
  refine ⟨⟨?_, ?_⟩, ⟨?_, ?_⟩, ⟨?_, ?_⟩⟩
  · rw [DB.set_sync_mapping]
    rw [List.pairwise_append]
    refine ⟨pairwise_filter_of_pairwise _ _ _ h1, List.pairwise_singleton _ _, ?_⟩
    intro a hamem b hbmem
    have hpa := List.of_mem_filter hamem
    simp only [Bool.not_eq_true', Bool.or_eq_false_iff, beq_eq_false_iff_ne] at hpa
    simp only [List.mem_singleton] at hbmem
    subst hbmem
    exact hpa.1
  · rw [DB.set_sync_mapping]
    rw [List.pairwise_append]
    refine ⟨pairwise_filter_of_pairwise _ _ _ h2, List.pairwise_singleton _ _, ?_⟩
    intro a hamem b hbmem
    have hpa := List.of_mem_filter hamem
    simp only [Bool.not_eq_true', Bool.or_eq_false_iff, beq_eq_false_iff_ne] at hpa
    simp only [List.mem_singleton] at hbmem
    subst hbmem
    exact hpa.2
  · exact pairwise_filter_of_pairwise _ _ _ h1
  · exact pairwise_filter_of_pairwise _ _ _ h2
  · exact pairwise_filter_of_pairwise _ _ _ h1
  · exact pairwise_filter_of_pairwise _ _ _ h2

/-- Witness for C9: the invariant theorem applied to a concrete two-row
table. -/
theorem mapping_uniqueness_invariant_witness :
    MappingInv ((DB.mk []
      [⟨1, "pomodoro-1@pomodoro-timer", none, none⟩,
       ⟨2, "pomodoro-2@pomodoro-timer", none, none⟩] 3).set_sync_mapping 2
        "pomodoro-9@pomodoro-timer" none 5).mappings :=
  (mapping_uniqueness_invariant_preserved
    (DB.mk []
      [⟨1, "pomodoro-1@pomodoro-timer", none, none⟩,
       ⟨2, "pomodoro-2@pomodoro-timer", none, none⟩] 3)
    2 "pomodoro-9@pomodoro-timer" none 5 (by constructor <;> decide)).1

/-! ## Claims C4 and C5 — configuration and connectivity errors -/

/-- Counterexample to C4 as stated: with no CalDAV URL configured, the
combined sync at a concrete state returns `success := false` — a failure
result, not the no-op success the claim asserts. -/
theorem config_error_returns_failure_counterexample :
    ((caldavSync ⟨none, true, ""⟩ noFail defaultEnv 0
        ⟨⟨[], [], 1⟩, [], false⟩).2.success = false) ∧
    ((caldavSync ⟨none, true, ""⟩ noFail defaultEnv 0
        ⟨⟨[], [], 1⟩, [], false⟩).2.to_calendar.error
      = some "No CalDAV URL configured") := by
  decide

/-- Claim C4 (amended): when no remote URL is configured, `sync()` is a
no-op — the local store, the remote store and the connection state are
untouched — and it returns the explanatory message
`'No CalDAV URL configured'`, but as a failure result
(`success = false`), not a success. -/
theorem config_error_noop_with_message (cfg : SyncConfig)
    (beh : CalBehavior) (env : PyEnv) (now : Int) (st : SyncState)
    (hurl : cfg.url = none) (hconn : st.connected = false) :
    (caldavSync cfg beh env now st).1 = st ∧
    (caldavSync cfg beh env now st).2.success = false ∧
    (caldavSync cfg beh env now st).2.to_calendar.error
      = some "No CalDAV URL configured" ∧
    (caldavSync cfg beh env now st).2.from_calendar.error
      = some "No CalDAV URL configured" := by
  simp [caldavSync, sync_to_calendar, sync_from_calendar, connect, hurl, hconn]

/-- Witness for C4 (amended) at a concrete unconfigured state. -/
theorem config_error_noop_with_message_witness :
    (caldavSync ⟨none, false, "e"⟩ noFail defaultEnv 7
        ⟨⟨[⟨1, "a", 60, 0, none, "completed", 60⟩], [], 2⟩, [], false⟩).1
      = ⟨⟨[⟨1, "a", 60, 0, none, "completed", 60⟩], [], 2⟩, [], false⟩ ∧
    (caldavSync ⟨none, false, "e"⟩ noFail defaultEnv 7
        ⟨⟨[⟨1, "a", 60, 0, none, "completed", 60⟩], [], 2⟩, [], false⟩).2.success
      = false := by
  have h := config_error_noop_with_message ⟨none, false, "e"⟩ noFail defaultEnv 7
    ⟨⟨[⟨1, "a", 60, 0, none, "completed", 60⟩], [], 2⟩, [], false⟩ rfl rfl
  exact ⟨h.1, h.2.1⟩

/-- Claim C5 (confirmed): when the server cannot be reached or
authentication fails, the combined `sync()` fails fast — the result is a
failure carrying the connection error from both sub-operations, and
neither push nor pull touches the local or the remote store. -/
theorem connectivity_error_fails_fast (cfg : SyncConfig)
    (beh : CalBehavior) (env : PyEnv) (now : Int) (st : SyncState)
    (hurl : cfg.url.isSome = true) (hbad : cfg.connectOk = false)
    (hconn : st.connected = false) :
    (caldavSync cfg beh env now st).1 = st ∧
    (caldavSync cfg beh env now st).2.success = false ∧
    (caldavSync cfg beh env now st).2.to_calendar.error
      = some cfg.connectErr ∧
    (caldavSync cfg beh env now st).2.from_calendar.error
      = some cfg.connectErr ∧
    (caldavSync cfg beh env now st).2.to_calendar.synced = 0 ∧
    (caldavSync cfg beh env now st).2.to_calendar.updated = 0 ∧
    (caldavSync cfg beh env now st).2.to_calendar.deleted = 0 ∧
    (caldavSync cfg beh env now st).2.from_calendar.imported = 0 ∧
    (caldavSync cfg beh env now st).2.from_calendar.updated = 0 := by
  obtain ⟨u, hu⟩ := Option.isSome_iff_exists.mp hurl
  simp [caldavSync, sync_to_calendar, sync_from_calendar, connect, hu, hbad,
    hconn]

/-- Witness for C5 at a concrete unreachable server. -/
theorem connectivity_error_fails_fast_witness :
    (caldavSync ⟨some "https://caldav.example", false, "Connection refused"⟩
        noFail defaultEnv 0
        ⟨⟨[⟨1, "a", 60, 0, none, "completed", 60⟩], [], 2⟩,
         [⟨"x", "y", "z", some 0, some 1, "u"⟩], false⟩).1
      = ⟨⟨[⟨1, "a", 60, 0, none, "completed", 60⟩], [], 2⟩,
         [⟨"x", "y", "z", some 0, some 1, "u"⟩], false⟩ ∧
    (caldavSync ⟨some "https://caldav.example", false, "Connection refused"⟩
        noFail defaultEnv 0
        ⟨⟨[⟨1, "a", 60, 0, none, "completed", 60⟩], [], 2⟩,
         [⟨"x", "y", "z", some 0, some 1, "u"⟩], false⟩).2.to_calendar.error
      = some "Connection refused" := by
  have h := connectivity_error_fails_fast
    ⟨some "https://caldav.example", false, "Connection refused"⟩
    noFail defaultEnv 0
    ⟨⟨[⟨1, "a", 60, 0, none, "completed", 60⟩], [], 2⟩,
     [⟨"x", "y", "z", some 0, some 1, "u"⟩], false⟩ rfl rfl rfl
  exact ⟨h.1, h.2.2.1⟩

/-! ## Claim C6 — push of an unmapped session -/

/-- Counterexample to C6 as stated: the UID of the mapping a push creates
for an unmapped session is `pomodoro-<id>@pomodoro-timer`, which does not
start with `session-`, so it never matches the claimed deterministic
pattern `session-<id>@<namespace>`. -/
theorem push_unmapped_uid_counterexample :
    ((sync_to_calendar ⟨some "u", true, ""⟩ noFail 0
        ⟨⟨[⟨1, "reading", 1500, 0, some 1500, "completed", 1500⟩], [], 2⟩,
         [], true⟩).1.db.mappings.map (fun m => m.calendar_uid)
      = ["pomodoro-1@pomodoro-timer"]) ∧
    strStarts "pomodoro-1@pomodoro-timer" "session-" = false ∧
    ((sync_to_calendar ⟨some "u", true, ""⟩ noFail 0
        ⟨⟨[⟨1, "reading", 1500, 0, some 1500, "completed", 1500⟩], [], 2⟩,
         [], true⟩).2
      = ⟨true, 1, 0, 0, none⟩) := by
  decide

/-- Claim C6 (amended): pushing a session with no mapping creates exactly
one remote object whose UID is deterministically derived from the session
id — as `pomodoro-<id>@pomodoro-timer`, not the claimed
`session-<id>@<namespace>` — persists a new mapping with that UID, and
counts the item as synced (new): result counts are created 1, updated 0,
deleted 0. -/
theorem push_unmapped_session_creates (s : Session) (nid : Nat)
    (cfg : SyncConfig) (beh : CalBehavior) (now : Int) :
    sync_to_calendar cfg beh now ⟨⟨[s], [], nid⟩, [], true⟩ =
      (⟨⟨[s],
         [⟨s.id, "pomodoro-" ++ toString s.id ++ "@pomodoro-timer", none,
           some now⟩], nid⟩,
        [renderEvent ("pomodoro-" ++ toString s.id ++ "@pomodoro-timer") s],
        true⟩,
       ⟨true, 1, 0, 0, none⟩) :=
  rfl

/-! ## Claim C3 — conflict recovery on push -/

/-- Claim C3 (confirmed): when the remote update of a mapped session fails
with a precondition conflict (HTTP 412 / etag mismatch), push deletes the
object and recreates it under the same UID taken from the mapping, counts
the item as updated, and the push still succeeds. -/
theorem push_conflict_recovery (s : Session) (nid : Nat) (U sm ds : String)
    (d1 d2 : Option Int) (uurl : String) (murl : Option String)
    (ls : Option Int) (err : String) (cfg : SyncConfig) (beh : CalBehavior)
    (now : Int) (hsave : beh.saveErr U = some err)
    (h412 : isPrecondErr err = true) (hdel : beh.delErr U = none) :
    sync_to_calendar cfg beh now
        ⟨⟨[s], [⟨s.id, U, murl, ls⟩], nid⟩, [⟨U, sm, ds, d1, d2, uurl⟩],
         true⟩ =
      (⟨⟨[s], [⟨s.id, U, murl, ls⟩], nid⟩, [renderEvent U s], true⟩,
       ⟨true, 0, 1, 0, none⟩) := by
  cases hwin : inWindow now (⟨U, sm, ds, d1, d2, uurl⟩ : REvent) with
  | false =>
    simp [sync_to_calendar, pushBody, orphanStep, sweepStep,
      pushSessionStep, searchWindow, searchUid, deleteEventBestEffort,
      DB.get_sync_mapping_by_session, hsave, hdel, hwin, List.eraseP]
  | true =>
    cases hsig : isPomodoroUid U || markerInSummary sm with
    | false =>
      simp [sync_to_calendar, pushBody, orphanStep, sweepStep,
        pushSessionStep, searchWindow, searchUid, deleteEventBestEffort,
        DB.get_sync_mapping_by_session, hsave, hdel, hwin, hsig,
        List.eraseP]
    | true =>
      simp [sync_to_calendar, pushBody, orphanStep, sweepStep,
        pushSessionStep, searchWindow, searchUid, deleteEventBestEffort,
        DB.get_sync_mapping_by_session, hsave, hdel, hwin, hsig,
        List.eraseP, ite_self]

/-- Witness for C3: conflict recovery at a concrete state whose
`event.save()` raises `412 Precondition Failed`. -/
theorem push_conflict_recovery_witness :
    sync_to_calendar ⟨some "u", true, ""⟩
        ⟨fun u => if u == "pomodoro-1@pomodoro-timer"
                  then some "412 Precondition Failed" else none,
         fun _ => none, fun _ => none⟩ 0
        ⟨⟨[⟨1, "reading", 1500, 0, some 1500, "completed", 1500⟩],
          [⟨1, "pomodoro-1@pomodoro-timer", none, none⟩], 2⟩,
         [⟨"pomodoro-1@pomodoro-timer", "old", "old", some 7, some 8, "uM"⟩],
         true⟩ =
      (⟨⟨[⟨1, "reading", 1500, 0, some 1500, "completed", 1500⟩],
         [⟨1, "pomodoro-1@pomodoro-timer", none, none⟩], 2⟩,
        [renderEvent "pomodoro-1@pomodoro-timer"
          ⟨1, "reading", 1500, 0, some 1500, "completed", 1500⟩], true⟩,
       ⟨true, 0, 1, 0, none⟩) :=
  push_conflict_recovery
    ⟨1, "reading", 1500, 0, some 1500, "completed", 1500⟩ 2
    "pomodoro-1@pomodoro-timer" "old" "old" (some 7) (some 8) "uM" none none
    "412 Precondition Failed" ⟨some "u", true, ""⟩
    ⟨fun u => if u == "pomodoro-1@pomodoro-timer"
              then some "412 Precondition Failed" else none,
     fun _ => none, fun _ => none⟩ 0
    (by decide) (by decide) rfl

/-! ## Claim C2 — orphan convergence on push -/

/-- Claim C2 (confirmed): after deleting the only session, which left an
orphan mapping behind, push always removes the mapping row — even when
every remote delete attempt fails — and when the remote delete succeeds
the remote object is gone as well, so a search by the mapped UID returns
empty and the deletion is counted. -/
theorem push_orphan_convergence (sid nid : Nat) (U sm ds : String)
    (d1 d2 : Option Int) (uurl : String) (murl : Option String)
    (ls : Option Int) (cfg : SyncConfig) (beh : CalBehavior) (now : Int) :
    ((sync_to_calendar cfg beh now
        ⟨⟨[], [⟨sid, U, murl, ls⟩], nid⟩, [⟨U, sm, ds, d1, d2, uurl⟩],
         true⟩).1.db.mappings = []) ∧
    (beh.delErr U = none →
      sync_to_calendar cfg beh now
          ⟨⟨[], [⟨sid, U, murl, ls⟩], nid⟩, [⟨U, sm, ds, d1, d2, uurl⟩],
           true⟩ =
        (⟨⟨[], [], nid⟩, [], true⟩, ⟨true, 0, 0, 1, none⟩)) := by
  constructor
  · cases hdel : beh.delErr U with
    | none =>
      simp [sync_to_calendar, pushBody, orphanStep, sweepStep,
        pushSessionStep, searchWindow, searchUid, deleteEventBestEffort,
        DB.get_sync_mapping_by_uid, DB.delete_sync_mapping_by_uid, hdel,
        List.eraseP]
    | some e1 =>
      cases hdd : beh.directDelErr uurl with
      | none =>
        simp [sync_to_calendar, pushBody, orphanStep, sweepStep,
          pushSessionStep, searchWindow, searchUid, deleteEventBestEffort,
          DB.get_sync_mapping_by_uid, DB.delete_sync_mapping_by_uid, hdel,
          hdd, List.eraseP]
      | some e2 =>
        cases hwin : inWindow now (⟨U, sm, ds, d1, d2, uurl⟩ : REvent) with
        | false =>
          simp [sync_to_calendar, pushBody, orphanStep, sweepStep,
            pushSessionStep, searchWindow, searchUid,
            deleteEventBestEffort, DB.get_sync_mapping_by_uid,
            DB.delete_sync_mapping_by_uid, hdel, hdd, hwin, List.eraseP]
        | true =>
          cases hsig : isPomodoroUid U || markerInSummary sm with
          | false =>
            simp [sync_to_calendar, pushBody, orphanStep, sweepStep,
              pushSessionStep, searchWindow, searchUid,
              deleteEventBestEffort, DB.get_sync_mapping_by_uid,
              DB.delete_sync_mapping_by_uid, hdel, hdd, hwin, hsig,
              List.eraseP]
          | true =>
            simp [sync_to_calendar, pushBody, orphanStep, sweepStep,
              pushSessionStep, searchWindow, searchUid,
              deleteEventBestEffort, DB.get_sync_mapping_by_uid,
              DB.delete_sync_mapping_by_uid, hdel, hdd, hwin, hsig,
              List.eraseP]
  · intro hdel
    simp [sync_to_calendar, pushBody, orphanStep, sweepStep,
      pushSessionStep, searchWindow, searchUid, deleteEventBestEffort,
      DB.get_sync_mapping_by_uid, DB.delete_sync_mapping_by_uid, hdel,
      List.eraseP]

/-- Witness for C2: orphan sweep at a concrete state, remote delete
succeeding. -/
theorem push_orphan_convergence_witness :
    ((sync_to_calendar ⟨some "u", true, ""⟩ noFail 0
        ⟨⟨[], [⟨7, "pomodoro-7@pomodoro-timer", none, none⟩], 9⟩,
         [⟨"pomodoro-7@pomodoro-timer", "🍅 z", "d", some 3, some 4, "u2"⟩],
         true⟩).1.db.mappings = []) ∧
    (sync_to_calendar ⟨some "u", true, ""⟩ noFail 0
        ⟨⟨[], [⟨7, "pomodoro-7@pomodoro-timer", none, none⟩], 9⟩,
         [⟨"pomodoro-7@pomodoro-timer", "🍅 z", "d", some 3, some 4, "u2"⟩],
         true⟩ =
      (⟨⟨[], [], 9⟩, [], true⟩, ⟨true, 0, 0, 1, none⟩)) := by
  have h := push_orphan_convergence 7 9 "pomodoro-7@pomodoro-timer" "🍅 z"
    "d" (some 3) (some 4) "u2" none none ⟨some "u", true, ""⟩ noFail 0
  exact ⟨h.1, h.2 rfl⟩

/-! ## Claim C7 — pull field derivation and import -/

/-- Task label derived by pull from a remote object's title:
`summary.replace('🍅', '').strip()`, with the fixed placeholder
`'Imported Session'` when the stripped title is empty. -/
def derivedTask (summary : String) : String :=
  if stripMarker summary == "" then "Imported Session" else stripMarker summary

/-- Claim C7 (confirmed): a remote object recognized as ours — its UID
matches the deterministic pattern or its title carries the marker — is
imported by pull (when nothing matches it locally) as a new completed
session whose task is the marker-stripped title (placeholder when empty),
whose end defaults to start plus 25 minutes when DTEND is absent, and
whose duration is end minus start, together with a new mapping; an object
matching neither signal is skipped and the store is untouched. -/
theorem pull_field_derivation (uid sm ds : String) (t : Int)
    (d2 : Option Int) (uurl : String) (nid : Nat) (cfg : SyncConfig)
    (env : PyEnv) (now : Int) :
    (isPomodoroSignal uid sm = true → uid ≠ "" →
      inWindow now ⟨uid, sm, ds, some t, d2, uurl⟩ = true →
      sync_from_calendar cfg env now
          ⟨⟨[], [], nid⟩, [⟨uid, sm, ds, some t, d2, uurl⟩], true⟩ =
        (⟨⟨[⟨nid, derivedTask sm, d2.getD (t + 25 * 60) - t, t,
             some (d2.getD (t + 25 * 60)), "completed",
             d2.getD (t + 25 * 60) - t⟩],
           [⟨nid, uid, some uurl, some now⟩], nid + 1⟩,
          [⟨uid, sm, ds, some t, d2, uurl⟩], true⟩,
         ⟨true, 1, 0, 0, 1, none⟩)) ∧
    (isPomodoroSignal uid sm = false →
      inWindow now ⟨uid, sm, ds, some t, d2, uurl⟩ = true →
      sync_from_calendar cfg env now
          ⟨⟨[], [], nid⟩, [⟨uid, sm, ds, some t, d2, uurl⟩], true⟩ =
        (⟨⟨[], [], nid⟩, [⟨uid, sm, ds, some t, d2, uurl⟩], true⟩,
         ⟨true, 0, 0, 1, 1, none⟩)) := by
  constructor
  · intro hsig hne hwin
    have hne' : (uid == "") = false := by
      simp only [beq_eq_false_iff_ne, ne_eq]
      exact hne
    cases hpom : isPomodoroUid uid with
    | true =>
      simp [sync_from_calendar, searchWindow, pullStep, hwin, hpom, hne',
        DB.get_sync_mapping_by_uid, DB.find_session_by_time_and_task,
        DB.add_session, DB.set_sync_mapping, derivedTask]
    | false =>
      have hmark : markerInSummary sm = true := by
        have := hsig
        rw [isPomodoroSignal, hpom] at this
        simpa using this
      simp [sync_from_calendar, searchWindow, pullStep, hwin, hpom, hne',
        hmark, DB.get_sync_mapping_by_uid,
        DB.find_session_by_time_and_task, DB.add_session,
        DB.set_sync_mapping, derivedTask]
  · intro hsig hwin
    have hpom : isPomodoroUid uid = false := by
      have := hsig
      rw [isPomodoroSignal] at this
      exact (Bool.or_eq_false_iff.mp this).1
    have hmark : markerInSummary sm = false := by
      have := hsig
      rw [isPomodoroSignal] at this
      exact (Bool.or_eq_false_iff.mp this).2
    simp [sync_from_calendar, searchWindow, pullStep, hwin, hpom, hmark]

/-- Witness for C7: the spec scenario — a remote object titled
`🍅 deep-work` lasting 25 minutes is imported as
`Session (task deep-work, duration 1500, completed)` with a new mapping —
and a foreign object is skipped. -/
theorem pull_field_derivation_witness :
    (sync_from_calendar ⟨some "u", true, ""⟩ defaultEnv 0
        ⟨⟨[], [], 5⟩, [⟨"evt-1", "🍅 deep-work", "", some 100, some 1600,
          "u7"⟩], true⟩ =
      (⟨⟨[⟨5, "deep-work", 1500, 100, some 1600, "completed", 1500⟩],
         [⟨5, "evt-1", some "u7", some 0⟩], 6⟩,
        [⟨"evt-1", "🍅 deep-work", "", some 100, some 1600, "u7"⟩], true⟩,
       ⟨true, 1, 0, 0, 1, none⟩)) ∧
    (sync_from_calendar ⟨some "u", true, ""⟩ defaultEnv 0
        ⟨⟨[], [], 5⟩, [⟨"evt-2", "groceries", "", some 100, some 1600,
          "u8"⟩], true⟩ =
      (⟨⟨[], [], 5⟩,
        [⟨"evt-2", "groceries", "", some 100, some 1600, "u8"⟩], true⟩,
       ⟨true, 0, 0, 1, 1, none⟩)) := by
  constructor
  · have h := (pull_field_derivation "evt-1" "🍅 deep-work" "" 100
      (some 1600) "u7" 5 ⟨some "u", true, ""⟩ defaultEnv 0).1
      (by decide) (by decide) (by decide)
    simpa using h
  · have h := (pull_field_derivation "evt-2" "groceries" "" 100
      (some 1600) "u8" 5 ⟨some "u", true, ""⟩ defaultEnv 0).2
      (by decide) (by decide)
    simpa using h

/-! ## String facts about the deterministic UID -/

theorem str_data_append (a b : String) : (a ++ b).data = a.data ++ b.data := by
  cases a
  cases b
  rfl

theorem listIsPrefix_self_append (p t : List Char) :
    listIsPrefix p (p ++ t) = true := by
  induction p with
  | nil => rfl
  | cons c cs ih => simp [listIsPrefix, ih]

theorem listHasSub_suffix (pre nd : List Char) :
    listHasSub (pre ++ nd) nd = true := by
  induction pre with
  | nil =>
    cases nd with
    | nil => rfl
    | cons c cs =>
      have h : listIsPrefix (c :: cs) (c :: cs) = true := by
        have := listIsPrefix_self_append (c :: cs) []
        simpa using this
      simp [listHasSub, h]
  | cons c pre ih =>
    simp [listHasSub, ih]

/-- Objects created by push are always recognized by the pull path's UID
pattern test. -/
theorem isPomodoroUid_sessionUid (s : Session) :
    isPomodoroUid (sessionUid s) = true := by
  rw [isPomodoroUid, sessionUid, strStarts, strHasSub, str_data_append,
    str_data_append, List.append_assoc]
  rw [listIsPrefix_self_append]
  rw [← List.append_assoc, listHasSub_suffix]
  rfl

/-! ## Claim C10 — frame property of pull updates -/

/-- Claim C10 (confirmed): when pull updates a session reachable through a
live mapping, it rewrites only the task name, start, end, and duration of
that one row; every session's `status` and `completed_seconds` — and every
other session entirely — are left unchanged. -/
theorem pull_update_frame (db : DB) (uid sm ds : String) (t : Int)
    (d2 : Option Int) (uurl : String) (m : Mapping) (cfg : SyncConfig)
    (env : PyEnv) (now : Int)
    (hsig : isPomodoroSignal uid sm = true) (hne : uid ≠ "")
    (hwin : inWindow now ⟨uid, sm, ds, some t, d2, uurl⟩ = true)
    (hmap : db.get_sync_mapping_by_uid uid = [m])
    (hex : db.session_exists m.session_id = true) :
    ((sync_from_calendar cfg env now
        ⟨db, [⟨uid, sm, ds, some t, d2, uurl⟩], true⟩).1.db.sessions
      = db.sessions.map (fun s =>
          if s.id == m.session_id then
            DB.updateFields s (some (derivedTask sm))
              (some (d2.getD (t + 25 * 60) - t)) (some t)
              (some (d2.getD (t + 25 * 60))) none none
          else s)) ∧
    ((sync_from_calendar cfg env now
        ⟨db, [⟨uid, sm, ds, some t, d2, uurl⟩], true⟩).1.db.sessions.map
          (fun s => s.status)
      = db.sessions.map (fun s => s.status)) ∧
    ((sync_from_calendar cfg env now
        ⟨db, [⟨uid, sm, ds, some t, d2, uurl⟩], true⟩).1.db.sessions.map
          (fun s => s.completed_seconds)
      = db.sessions.map (fun s => s.completed_seconds)) := by
  have hne' : (uid == "") = false := by
    simp only [beq_eq_false_iff_ne, ne_eq]
    exact hne
  have hmain :
      (sync_from_calendar cfg env now
          ⟨db, [⟨uid, sm, ds, some t, d2, uurl⟩], true⟩).1.db.sessions
        = db.sessions.map (fun s =>
            if s.id == m.session_id then
              DB.updateFields s (some (derivedTask sm))
                (some (d2.getD (t + 25 * 60) - t)) (some t)
                (some (d2.getD (t + 25 * 60))) none none
            else s) := by
    cases hpom : isPomodoroUid uid with
    | true =>
      simp [sync_from_calendar, searchWindow, pullStep, hwin, hpom, hne',
        hmap, hex, DB.update_session, derivedTask]
    | false =>
      have hmark : markerInSummary sm = true := by
        have := hsig
        rw [isPomodoroSignal, hpom] at this
        simpa using this
      simp [sync_from_calendar, searchWindow, pullStep, hwin, hpom, hne',
        hmark, hmap, hex, DB.update_session, derivedTask]
  refine ⟨hmain, ?_, ?_⟩
  · rw [hmain, List.map_map]
    refine List.map_congr_left ?_
    intro a _
    by_cases h : a.id = m.session_id <;> simp [h, DB.updateFields]
  · rw [hmain, List.map_map]
    refine List.map_congr_left ?_
    intro a _
    by_cases h : a.id = m.session_id <;> simp [h, DB.updateFields]

/-- Witness for C10: a concrete two-session store where the mapped session
is updated and both sessions keep their status and completed seconds. -/
theorem pull_update_frame_witness :
    ((sync_from_calendar ⟨some "u", true, ""⟩ defaultEnv 0
        ⟨⟨[⟨1, "a", 1500, 0, some 1500, "cancelled", 700⟩,
           ⟨2, "b", 1500, 9000, some 10500, "completed", 1500⟩],
          [⟨1, "pomodoro-1@pomodoro-timer", none, none⟩], 3⟩,
         [⟨"pomodoro-1@pomodoro-timer", "🍅 a2", "d", some 60, some 1560,
           "w"⟩], true⟩).1.db.sessions.map (fun s => s.status)
      = ["cancelled", "completed"]) ∧
    ((sync_from_calendar ⟨some "u", true, ""⟩ defaultEnv 0
        ⟨⟨[⟨1, "a", 1500, 0, some 1500, "cancelled", 700⟩,
           ⟨2, "b", 1500, 9000, some 10500, "completed", 1500⟩],
          [⟨1, "pomodoro-1@pomodoro-timer", none, none⟩], 3⟩,
         [⟨"pomodoro-1@pomodoro-timer", "🍅 a2", "d", some 60, some 1560,
           "w"⟩], true⟩).1.db.sessions.map (fun s => s.completed_seconds)
      = [700, 1500]) := by
  have h := pull_update_frame
    ⟨[⟨1, "a", 1500, 0, some 1500, "cancelled", 700⟩,
      ⟨2, "b", 1500, 9000, some 10500, "completed", 1500⟩],
     [⟨1, "pomodoro-1@pomodoro-timer", none, none⟩], 3⟩
    "pomodoro-1@pomodoro-timer" "🍅 a2" "d" 60 (some 1560) "w"
    ⟨1, "pomodoro-1@pomodoro-timer", none, none⟩
    ⟨some "u", true, ""⟩ defaultEnv 0
    (by decide) (by decide) (by decide) (by decide) (by decide)
  refine ⟨?_, ?_⟩
  · rw [h.2.1]
    decide
  · rw [h.2.2]
    decide

/-! ## Claim C8 — round trip after losing the mapping -/

/-- Counterexample to C8 as stated: for the session with task `" x "`
(whitespace around the label), push writes the title `🍅  x `, and the
pull-side derivation strips it to `"x"`, which the fuzzy lookup compares
against the stored `" x "` — no match, so pull imports a duplicate: the
store ends with two sessions and the object is counted as imported, not
updated. -/
theorem round_trip_duplicate_counterexample :
    ((sync_from_calendar ⟨some "u", true, ""⟩ defaultEnv 0
        ⟨((sync_to_calendar ⟨some "u", true, ""⟩ noFail 0
            ⟨⟨[⟨1, " x ", 1500, 0, some 1500, "completed", 1500⟩], [], 2⟩,
             [], true⟩).1.db.delete_sync_mapping_by_session 1),
         (sync_to_calendar ⟨some "u", true, ""⟩ noFail 0
            ⟨⟨[⟨1, " x ", 1500, 0, some 1500, "completed", 1500⟩], [], 2⟩,
             [], true⟩).1.remote,
         true⟩).1.db.sessions.length = 2) ∧
    ((sync_from_calendar ⟨some "u", true, ""⟩ defaultEnv 0
        ⟨((sync_to_calendar ⟨some "u", true, ""⟩ noFail 0
            ⟨⟨[⟨1, " x ", 1500, 0, some 1500, "completed", 1500⟩], [], 2⟩,
             [], true⟩).1.db.delete_sync_mapping_by_session 1),
         (sync_to_calendar ⟨some "u", true, ""⟩ noFail 0
            ⟨⟨[⟨1, " x ", 1500, 0, some 1500, "completed", 1500⟩], [], 2⟩,
             [], true⟩).1.remote,
         true⟩).2.imported = 1) := by
  decide

/-- Claim C8 (amended): for every session whose task label survives the
title round trip (no marker character, no surrounding whitespace, not
empty — formally `derivedTask (sessionSummary s) = s.task_name`) and whose
start lies in the pull search window, pushing it, deleting its mapping and
pulling reconnects the remote object to the same session by fuzzy match:
the session is updated from the remote content, the mapping is recreated
under the same UID, the object is counted as updated (not imported), and
the session count stays one — no duplicate. -/
theorem round_trip_fuzzy_relink (s : Session) (nid : Nat)
    (cfg : SyncConfig) (beh : CalBehavior) (env : PyEnv) (now : Int)
    (hclean : derivedTask (sessionSummary s) = s.task_name)
    (hlo : now - yearSeconds ≤ s.start_time)
    (hhi : s.start_time ≤ now + yearSeconds) :
    sync_from_calendar cfg env now
        ⟨((sync_to_calendar cfg beh now
            ⟨⟨[s], [], nid⟩, [], true⟩).1.db.delete_sync_mapping_by_session
              s.id),
         (sync_to_calendar cfg beh now ⟨⟨[s], [], nid⟩, [], true⟩).1.remote,
         true⟩ =
      (⟨⟨[⟨s.id, s.task_name, sessionEndTime s - s.start_time, s.start_time,
           some (sessionEndTime s), s.status, s.completed_seconds⟩],
         [⟨s.id, sessionUid s, some (sessionUid s), some now⟩], nid⟩,
        [renderEvent (sessionUid s) s], true⟩,
       ⟨true, 0, 1, 0, 1, none⟩) := by
  have hpush : sync_to_calendar cfg beh now ⟨⟨[s], [], nid⟩, [], true⟩ =
      (⟨⟨[s], [⟨s.id, sessionUid s, none, some now⟩], nid⟩,
        [renderEvent (sessionUid s) s], true⟩, ⟨true, 1, 0, 0, none⟩) := rfl
  rw [hpush]
  have hw1 : decide (now - yearSeconds ≤ s.start_time) = true :=
    decide_eq_true hlo
  have hw2 : decide (s.start_time ≤ now + yearSeconds) = true :=
    decide_eq_true hhi
  simp only [derivedTask, beq_iff_eq] at hclean
  have hwin : inWindow now (renderEvent (sessionUid s) s) = true := by
    show (decide (now - yearSeconds ≤ s.start_time) &&
      decide (s.start_time ≤ now + yearSeconds)) = true
    rw [hw1, hw2]
    rfl
  simp only [renderEvent, sessionEndTime] at hwin
  simp [DB.delete_sync_mapping_by_session, sync_from_calendar, searchWindow,
    renderEvent, hwin, List.filter_cons, pullStep, isPomodoroUid_sessionUid,
    hclean, DB.get_sync_mapping_by_uid, DB.get_sync_mapping_by_session,
    DB.find_session_by_time_and_task, DB.update_session, DB.updateFields,
    DB.set_sync_mapping, sessionEndTime]

/-- Witness for C8 (amended): round trip of a concrete clean-labelled
session. -/
theorem round_trip_fuzzy_relink_witness :
    sync_from_calendar ⟨some "u", true, ""⟩ defaultEnv 0
        ⟨((sync_to_calendar ⟨some "u", true, ""⟩ noFail 0
            ⟨⟨[⟨1, "x", 1500, 0, some 1500, "completed", 1500⟩], [], 2⟩,
             [], true⟩).1.db.delete_sync_mapping_by_session 1),
         (sync_to_calendar ⟨some "u", true, ""⟩ noFail 0
            ⟨⟨[⟨1, "x", 1500, 0, some 1500, "completed", 1500⟩], [], 2⟩,
             [], true⟩).1.remote,
         true⟩ =
      (⟨⟨[⟨1, "x", 1500, 0, some 1500, "completed", 1500⟩],
         [⟨1, "pomodoro-1@pomodoro-timer", some "pomodoro-1@pomodoro-timer",
           some 0⟩], 2⟩,
        [renderEvent "pomodoro-1@pomodoro-timer"
          ⟨1, "x", 1500, 0, some 1500, "completed", 1500⟩], true⟩,
       ⟨true, 0, 1, 0, 1, none⟩) := by
  have h := round_trip_fuzzy_relink
    ⟨1, "x", 1500, 0, some 1500, "completed", 1500⟩ 2
    ⟨some "u", true, ""⟩ noFail defaultEnv 0
    (by decide) (by decide) (by decide)
  simpa using h

/-! ## Claim C1 — idempotence of the combined sync -/

/-- Content agreement between a remote object and the session it mirrors:
exactly the four fields push writes. -/
@[reducible] def contentEq (e : REvent) (s : Session) : Prop :=
  e.summary = sessionSummary s ∧ e.description = sessionDescription s ∧
  e.dtstart = some s.start_time ∧ e.dtend = some (sessionEndTime s)

/-- The synchronized, pull-normalized relation between the two stores:
a live connection; distinct session ids, mapping keys and remote UIDs;
no orphan mappings; every session mapped to a remote object carrying its
rendered content; every pomodoro-recognizable remote object backed by a
live mapping and its session; and sessions already in the normal form
pull writes back (end present and equal to start plus duration, task
label surviving the title round trip). -/
@[reducible] def Synced (st : SyncState) : Prop :=
  st.connected = true ∧
  st.db.sessions.Pairwise (fun a b => a.id ≠ b.id) ∧
  st.db.mappings.Pairwise (fun a b => a.session_id ≠ b.session_id) ∧
  st.db.mappings.Pairwise (fun a b => a.calendar_uid ≠ b.calendar_uid) ∧
  st.remote.Pairwise (fun a b => a.uid ≠ b.uid) ∧
  (∀ m ∈ st.db.mappings, ∃ s ∈ st.db.sessions, s.id = m.session_id) ∧
  (∀ s ∈ st.db.sessions, ∃ m ∈ st.db.mappings, m.session_id = s.id ∧
     ∃ e ∈ st.remote, e.uid = m.calendar_uid ∧ contentEq e s) ∧
  (∀ e ∈ st.remote, isPomodoroSignal e.uid e.summary = true →
     e.uid ≠ "" ∧ ∃ m ∈ st.db.mappings, m.calendar_uid = e.uid ∧
       ∃ s ∈ st.db.sessions, s.id = m.session_id ∧ contentEq e s) ∧
  (∀ s ∈ st.db.sessions,
     s.end_time = some (s.start_time + s.duration_seconds) ∧
     derivedTask (sessionSummary s) = s.task_name)

theorem contains_of_mem {α : Type} [BEq α] [LawfulBEq α] {a : α}
    {l : List α} (h : a ∈ l) : l.contains a = true :=
  List.elem_eq_true_of_mem h

theorem updFirst_id (p : REvent → Bool) (f : REvent → REvent)
    (l : List REvent) (h : ∀ x ∈ l, p x = true → f x = x) :
    updFirst p f l = l := by
  induction l with
  | nil => rfl
  | cons x xs ih =>
    rw [updFirst]
    cases hp : p x with
    | true => rw [if_pos rfl, h x (List.mem_cons_self x xs) hp]
    | false =>
      simp only [Bool.false_eq_true, if_false]
      rw [ih (fun y hy => h y (List.mem_cons_of_mem x hy))]

theorem revent_rewrite_self (e : REvent) (s : Session)
    (hce : contentEq e s) :
    ({ e with
        summary := sessionSummary s
        description := sessionDescription s
        dtstart := some s.start_time
        dtend := some (sessionEndTime s) } : REvent) = e := by
  obtain ⟨h1, h2, h3, h4⟩ := hce
  cases e
  simp_all

theorem session_rewrite_self (s : Session)
    (hend : s.end_time = some (s.start_time + s.duration_seconds)) :
    DB.updateFields s (some s.task_name) (some s.duration_seconds)
      (some s.start_time) (some (sessionEndTime s)) none none = s := by
  have hse : sessionEndTime s = s.start_time + s.duration_seconds := by
    rw [sessionEndTime, hend]
    rfl
  cases s
  simp_all [DB.updateFields]

theorem pushFold_counts (beh : CalBehavior) (now : Int) (db0 : DB)
    (rem0 : List REvent) (l : List Session)
    (h : ∀ s ∈ l, ∀ k, pushSessionStep beh now (db0, rem0, 0, k) s
      = (db0, rem0, 0, k + 1)) :
    ∀ k, l.foldl (pushSessionStep beh now) (db0, rem0, 0, k)
      = (db0, rem0, 0, k + l.length) := by
  induction l with
  | nil => intro k; rfl
  | cons x xs ih =>
    intro k
    rw [List.foldl_cons, h x (List.mem_cons_self x xs) k]
    rw [ih (fun y hy k' => h y (List.mem_cons_of_mem x hy) k') (k + 1)]
    have harith : k + 1 + xs.length = k + (x :: xs).length := by
      simp only [List.length_cons]
      omega
    rw [harith]

theorem pullFold_frame (env : PyEnv) (now : Int) (db0 : DB)
    (l : List REvent)
    (h : ∀ e ∈ l, ∀ i u sk,
      pullStep env now (db0, i, u, sk) e = (db0, i, u + 1, sk) ∨
      pullStep env now (db0, i, u, sk) e = (db0, i, u, sk + 1)) :
    ∀ i u sk, ∃ u' sk',
      l.foldl (pullStep env now) (db0, i, u, sk) = (db0, i, u', sk') := by
  induction l with
  | nil => exact fun i u sk => ⟨u, sk, rfl⟩
  | cons x xs ih =>
    intro i u sk
    have hrest := ih (fun y hy => h y (List.mem_cons_of_mem x hy))
    rcases h x (List.mem_cons_self x xs) i u sk with hx | hx
    · rw [List.foldl_cons, hx]
      exact hrest i (u + 1) sk
    · rw [List.foldl_cons, hx]
      exact hrest i u (sk + 1)

theorem pushStep_noop (db : DB) (remote : List REvent) (now : Int)
    (s : Session)
    (hmsid : db.mappings.Pairwise (fun a b => a.session_id ≠ b.session_id))
    (heuid : remote.Pairwise (fun a b => a.uid ≠ b.uid)) (m : Mapping)
    (hm : m ∈ db.mappings) (hmsess : m.session_id = s.id) (e : REvent)
    (he : e ∈ remote) (heq : e.uid = m.calendar_uid) (hce : contentEq e s) :
    ∀ k, pushSessionStep noFail now (db, remote, 0, k) s
      = (db, remote, 0, k + 1) := by
  intro k
  obtain ⟨hc1, hc2, hc3, hc4⟩ := hce
  have h1 : db.get_sync_mapping_by_session s.id = [m] := by
    rw [DB.get_sync_mapping_by_session]
    exact filter_key_singleton (fun mm => mm.session_id) db.mappings hmsid
      m hm s.id hmsess
  have h2 : searchUid remote m.calendar_uid = [e] := by
    rw [searchUid]
    exact filter_key_singleton (fun ev => ev.uid) remote heuid e he
      m.calendar_uid heq
  have h3 : updFirst (fun x => x.uid == m.calendar_uid)
      (fun x =>
        { x with
          summary := sessionSummary s
          description := sessionDescription s
          dtstart := some s.start_time
          dtend := some (sessionEndTime s) }) remote = remote := by
    apply updFirst_id
    intro x hx hpx
    have hxe : x = e := by
      apply eq_of_mem_pairwise_key (fun ev => ev.uid) remote heuid x e hx he
      rw [beq_iff_eq] at hpx
      rw [hpx, heq]
    subst hxe
    exact revent_rewrite_self x s ⟨hc1, hc2, hc3, hc4⟩
  simp [pushSessionStep, h1, h2, h3, noFail, hc3, hc4]

theorem pullStep_noop (db : DB) (remote : List REvent) (env : PyEnv)
    (now : Int)
    (hsid : db.sessions.Pairwise (fun a b => a.id ≠ b.id))
    (hmuid : db.mappings.Pairwise
      (fun a b => a.calendar_uid ≠ b.calendar_uid))
    (hevt : ∀ e ∈ remote, isPomodoroSignal e.uid e.summary = true →
      e.uid ≠ "" ∧ ∃ m ∈ db.mappings, m.calendar_uid = e.uid ∧
        ∃ s ∈ db.sessions, s.id = m.session_id ∧ contentEq e s)
    (hnorm : ∀ s ∈ db.sessions,
      s.end_time = some (s.start_time + s.duration_seconds) ∧
      derivedTask (sessionSummary s) = s.task_name) :
    ∀ e ∈ remote, ∀ i u sk,
      pullStep env now (db, i, u, sk) e = (db, i, u + 1, sk) ∨
      pullStep env now (db, i, u, sk) e = (db, i, u, sk + 1) := by
  intro e he i u sk
  cases hsig : isPomodoroSignal e.uid e.summary with
  | false =>
    right
    have hpom : isPomodoroUid e.uid = false :=
      (Bool.or_eq_false_iff.mp (by rw [← isPomodoroSignal]; exact hsig)).1
    have hmark : markerInSummary e.summary = false :=
      (Bool.or_eq_false_iff.mp (by rw [← isPomodoroSignal]; exact hsig)).2
    simp [pullStep, hpom, hmark]
  | true =>
    left
    obtain ⟨hne, m, hm, hmeq, s, hs, hsideq, hc1, hc2, hc3, hc4⟩ :=
      hevt e he hsig
    have hne' : (e.uid == "") = false := by
      simp only [beq_eq_false_iff_ne, ne_eq]
      exact hne
    obtain ⟨hend, htask⟩ := hnorm s hs
    have hse : sessionEndTime s = s.start_time + s.duration_seconds := by
      rw [sessionEndTime, hend]
      rfl
    have hmapfind : db.get_sync_mapping_by_uid e.uid = [m] := by
      rw [DB.get_sync_mapping_by_uid]
      exact filter_key_singleton (fun mm => mm.calendar_uid) db.mappings
        hmuid m hm e.uid hmeq
    have hex : db.session_exists m.session_id = true := by
      rw [DB.session_exists]
      rw [List.any_eq_true]
      exact ⟨s, hs, by rw [beq_iff_eq]; exact hsideq⟩
    have hdur : sessionEndTime s - s.start_time = s.duration_seconds := by
      rw [hse]
      ring
    have hupd : db.update_session m.session_id (some s.task_name)
        (some s.duration_seconds) (some s.start_time)
        (some (sessionEndTime s)) none none = db := by
      rw [DB.update_session]
      have hmap : db.sessions.map (fun x =>
          if x.id == m.session_id then
            DB.updateFields x (some s.task_name) (some s.duration_seconds)
              (some s.start_time) (some (sessionEndTime s)) none none
          else x) = db.sessions := by
        conv_rhs => rw [← List.map_id db.sessions]
        apply List.map_congr_left
        intro x hx
        by_cases hxid : (x.id == m.session_id) = true
        · have hxs : x = s := by
            apply eq_of_mem_pairwise_key (fun ss => ss.id) db.sessions hsid
              x s hx hs
            rw [beq_iff_eq] at hxid
            rw [hxid, hsideq]
          subst hxs
          rw [if_pos hxid]
          exact session_rewrite_self x hend
        · rw [if_neg hxid]
          rfl
      rw [hmap]
    simp only [derivedTask, beq_iff_eq] at htask
    cases hpom : isPomodoroUid e.uid with
    | true =>
      simp [pullStep, hpom, hne', hc1, hc3, hc4, htask, hmapfind, hex,
        hdur, hupd]
    | false =>
      have hmark : markerInSummary e.summary = true := by
        have := hsig
        rw [isPomodoroSignal, hpom] at this
        simpa using this
      rw [hc1] at hmark
      simp [pullStep, hpom, hmark, hne', hc1, hc3, hc4, htask, hmapfind,
        hex, hdur, hupd]

/-- Claim C1 (amended): on stores already in the synchronized,
pull-normalized relation `Synced` — which is how the claim's "no local or
remote changes between the calls" is realized after a successful sync of
normalized data — a further `sync()` (push then pull, no remote failures)
has zero net effect: the state is unchanged and the call performs zero
creates, zero deletes and zero imports; it does report every mapped
session as "updated", but those updates rewrite identical content. -/
theorem sync_idempotent_on_synced (cfg : SyncConfig) (env : PyEnv)
    (now : Int) (st : SyncState) (h : Synced st) :
    (caldavSync cfg noFail env now st).1 = st ∧
    (caldavSync cfg noFail env now st).2.to_calendar.synced = 0 ∧
    (caldavSync cfg noFail env now st).2.to_calendar.deleted = 0 ∧
    (caldavSync cfg noFail env now st).2.from_calendar.imported = 0 ∧
    (caldavSync cfg noFail env now st).2.success = true := by
  obtain ⟨db, remote, conn⟩ := st
  obtain ⟨hconn, hsid, hmsid, hmuid, heuid, horph, hsess, hevt, hnorm⟩ := h
  simp only at hconn
  subst hconn
  have hA : db.mappings.foldl
      (orphanStep noFail (List.map (fun s => s.id) db.sessions))
      (db, remote, 0) = (db, remote, 0) := by
    apply foldl_fixed
    intro m hm acc
    obtain ⟨db1, rem1, k⟩ := acc
    obtain ⟨s, hs, hsideq⟩ := horph m hm
    have hcont : (List.map (fun s => s.id) db.sessions).contains
        m.session_id = true :=
      contains_of_mem (List.mem_map.mpr ⟨s, hs, hsideq⟩)
    simp only [orphanStep, hcont]
    simp
  have hB : (searchWindow remote now).foldl
      (sweepStep noFail
        (List.map sessionUid db.sessions ++
          List.map (fun m => m.calendar_uid)
            (List.filter
              (fun m => (List.map (fun s => s.id) db.sessions).contains
                m.session_id) db.mappings))
        (List.map (fun s => s.id) db.sessions))
      (db, remote, 0) = (db, remote, 0) := by
    apply foldl_fixed
    intro e he acc
    obtain ⟨db1, rem1, k⟩ := acc
    have hem : e ∈ remote := List.mem_of_mem_filter he
    cases hs1 : (isPomodoroUid e.uid || markerInSummary e.summary) with
    | false => simp [sweepStep, hs1]
    | true =>
      obtain ⟨hne, m, hm, hmeq, s, hs, hsideq, hce⟩ :=
        hevt e hem (by rw [isPomodoroSignal]; exact hs1)
      have hcont : (List.map (fun s => s.id) db.sessions).contains
          m.session_id = true :=
        contains_of_mem (List.mem_map.mpr ⟨s, hs, hsideq⟩)
      have hmf : m ∈ List.filter
          (fun m => (List.map (fun s => s.id) db.sessions).contains
            m.session_id) db.mappings :=
        List.mem_filter.mpr ⟨hm, hcont⟩
      have hexp : (List.map sessionUid db.sessions ++
          List.map (fun m => m.calendar_uid)
            (List.filter
              (fun m => (List.map (fun s => s.id) db.sessions).contains
                m.session_id) db.mappings)).contains e.uid = true := by
        apply contains_of_mem
        apply List.mem_append.mpr
        right
        exact List.mem_map.mpr ⟨m, hmf, hmeq⟩
      simp only [sweepStep, hs1, hexp]
      simp
  have hsessAll : ∀ s ∈ db.sessions, ∀ k,
      pushSessionStep noFail now (db, remote, 0, k) s
        = (db, remote, 0, k + 1) := by
    intro s hs k
    obtain ⟨m, hm, hmsess, e, he, heq, hce⟩ := hsess s hs
    exact pushStep_noop db remote now s hmsid heuid m hm hmsess e he heq
      hce k
  have hC := pushFold_counts noFail now db remote db.sessions hsessAll 0
  have hpush : sync_to_calendar cfg noFail now ⟨db, remote, true⟩
      = (⟨db, remote, true⟩,
         ⟨true, 0, db.sessions.length, 0, none⟩) := by
    rw [sync_to_calendar]
    simp only [pushBody, hA, hB, hC]
    simp
  have hpullElems : ∀ e ∈ searchWindow remote now, ∀ i u sk,
      pullStep env now (db, i, u, sk) e = (db, i, u + 1, sk) ∨
      pullStep env now (db, i, u, sk) e = (db, i, u, sk + 1) :=
    fun e he =>
      pullStep_noop db remote env now hsid hmuid hevt hnorm e
        (List.mem_of_mem_filter he)
  obtain ⟨u2, sk2, hD⟩ :=
    pullFold_frame env now db (searchWindow remote now) hpullElems 0 0 0
  have hpull : sync_from_calendar cfg env now ⟨db, remote, true⟩
      = (⟨db, remote, true⟩,
         ⟨true, 0, u2, sk2, (searchWindow remote now).length, none⟩) := by
    rw [sync_from_calendar]
    simp only [hD]
    simp
  refine ⟨?_, ?_, ?_, ?_, ?_⟩ <;>
    simp [caldavSync, hpush, hpull]

/-- Counterexample to C1 as stated: starting from a session whose stored
duration (1500 s) differs from its end-minus-start span (3600 s) — a state
every cancelled session produces — the first `sync()` rewrites the local
duration from the calendar span, so the second `sync()` pushes a changed
DESCRIPTION to the remote store: the second call reports one update and
makes a net remote change, not zero. -/
theorem sync_second_call_counterexample :
    ((caldavSync ⟨some "u", true, ""⟩ noFail defaultEnv 0
        (caldavSync ⟨some "u", true, ""⟩ noFail defaultEnv 0
          ⟨⟨[⟨1, "t", 1500, 0, some 3600, "completed", 1500⟩], [], 2⟩,
           [], true⟩).1).1.remote
      ≠ (caldavSync ⟨some "u", true, ""⟩ noFail defaultEnv 0
          ⟨⟨[⟨1, "t", 1500, 0, some 3600, "completed", 1500⟩], [], 2⟩,
           [], true⟩).1.remote) ∧
    ((caldavSync ⟨some "u", true, ""⟩ noFail defaultEnv 0
        (caldavSync ⟨some "u", true, ""⟩ noFail defaultEnv 0
          ⟨⟨[⟨1, "t", 1500, 0, some 3600, "completed", 1500⟩], [], 2⟩,
           [], true⟩).1).2.to_calendar.updated = 1) := by
  decide

/-- Witness for C1 (amended): a concrete synchronized state on which a
further sync is a no-op with zero creates, deletes and imports. -/
theorem sync_idempotent_on_synced_witness :
    ((caldavSync ⟨some "u", true, ""⟩ noFail defaultEnv 0
        ⟨⟨[⟨1, "t", 1500, 0, some 1500, "completed", 1500⟩],
          [⟨1, "pomodoro-1@pomodoro-timer", none, some 0⟩], 2⟩,
         [renderEvent "pomodoro-1@pomodoro-timer"
           ⟨1, "t", 1500, 0, some 1500, "completed", 1500⟩],
         true⟩).1
      = ⟨⟨[⟨1, "t", 1500, 0, some 1500, "completed", 1500⟩],
          [⟨1, "pomodoro-1@pomodoro-timer", none, some 0⟩], 2⟩,
         [renderEvent "pomodoro-1@pomodoro-timer"
           ⟨1, "t", 1500, 0, some 1500, "completed", 1500⟩],
         true⟩) ∧
    ((caldavSync ⟨some "u", true, ""⟩ noFail defaultEnv 0
        ⟨⟨[⟨1, "t", 1500, 0, some 1500, "completed", 1500⟩],
          [⟨1, "pomodoro-1@pomodoro-timer", none, some 0⟩], 2⟩,
         [renderEvent "pomodoro-1@pomodoro-timer"
           ⟨1, "t", 1500, 0, some 1500, "completed", 1500⟩],
         true⟩).2.to_calendar.synced = 0) := by
  have h := sync_idempotent_on_synced ⟨some "u", true, ""⟩ defaultEnv 0
    ⟨⟨[⟨1, "t", 1500, 0, some 1500, "completed", 1500⟩],
      [⟨1, "pomodoro-1@pomodoro-timer", none, some 0⟩], 2⟩,
     [renderEvent "pomodoro-1@pomodoro-timer"
       ⟨1, "t", 1500, 0, some 1500, "completed", 1500⟩],
     true⟩ (by decide)
  exact ⟨h.1, h.2.1⟩
